import Mathlib

set_option maxRecDepth 4000

/-!
# Verification of the weather-dashboard data pipeline

Shallow embedding of `dashboard.py`.  The pure tabular computation of
`get_weather_data` (lines 52-95 of the source) is modelled over exact
rationals (the Python floats are tenths-of-degree integers divided by
`10.0` and their means; we use `ℚ` for the arithmetic).  A raw daily
observation carries the fields the pipeline actually reads: the
`year`/`day_of_year` pair derived from the `DATE` index (two distinct
dates never share that pair, so the pair is a faithful stand-in for the
date), the `ELEMENT` kind and the `DATA_VALUE` in tenths of a degree.
-/

/-- One row of the downloaded GHCN CSV, restricted to the fields the
pipeline reads.  `year` and `day_of_year` are the values pandas derives
from the `DATE` column; `value` is `DATA_VALUE` in tenths of a degree. -/
structure Obs where
  year : Int
  day_of_year : Nat
  element : String
  value : ℚ
deriving DecidableEq, Repr

/-- Line 52: `df['ELEMENT'].isin(['TMAX', 'TMIN'])`. -/
def isTempRow (r : Obs) : Bool :=
  r.element == "TMAX" || r.element == "TMIN"

/-- Line 52: the frame `df_temp` of TMAX/TMIN rows. -/
def tempRows (input : List Obs) : List Obs :=
  input.filter isTempRow

/-- The TMAX observations of `df_temp` falling on pivot cell `(y, d)`,
already converted to degrees (line 58 divides by `10.0`). -/
def tmaxValsAt (input : List Obs) (y : Int) (d : Nat) : List ℚ :=
  ((tempRows input).filter
      (fun r => r.element == "TMAX" && r.year == y && r.day_of_year == d)).map
    (fun r => r.value / 10)

/-- The TMIN observations of `df_temp` on pivot cell `(y, d)`, in degrees. -/
def tminValsAt (input : List Obs) (y : Int) (d : Nat) : List ℚ :=
  ((tempRows input).filter
      (fun r => r.element == "TMIN" && r.year == y && r.day_of_year == d)).map
    (fun r => r.value / 10)

/-- Mean of a list of rationals; `none` on the empty list (pandas `NaN`). -/
def meanQ (l : List ℚ) : Option ℚ :=
  if l = [] then none else some (l.sum / (l.length : ℚ))

instance : Std.Antisymm ((· ≤ ·) : ℚ → ℚ → Prop) where
  antisymm h1 h2 := le_antisymm h1 h2

/-- The `TMAX` cell of `df_pivot` at `(y, d)`: `pivot_table` aggregates
duplicate observations of one cell with their mean, `NaN` when none. -/
def pivotTMAX (input : List Obs) (y : Int) (d : Nat) : Option ℚ :=
  meanQ (tmaxValsAt input y d)

/-- The `TMIN` cell of `df_pivot` at `(y, d)`. -/
def pivotTMIN (input : List Obs) (y : Int) (d : Nat) : Option ℚ :=
  meanQ (tminValsAt input y d)

/-- Lexicographic order on `(year, day_of_year)` keys. -/
def keyLe (a b : Int × Nat) : Prop :=
  a.1 < b.1 ∨ (a.1 = b.1 ∧ a.2 ≤ b.2)

instance : DecidableRel keyLe := fun a b => by unfold keyLe; infer_instance

instance : IsTotal (Int × Nat) keyLe where
  total a b := by
    rcases lt_trichotomy a.1 b.1 with h | h | h
    · exact Or.inl (Or.inl h)
    · rcases Nat.le_total a.2 b.2 with h2 | h2
      · exact Or.inl (Or.inr ⟨h, h2⟩)
      · exact Or.inr (Or.inr ⟨h.symm, h2⟩)
    · exact Or.inr (Or.inl h)

instance : IsTrans (Int × Nat) keyLe where
  trans a b c hab hbc := by
    rcases hab with h1 | ⟨e1, l1⟩
    · rcases hbc with h2 | ⟨e2, _⟩
      · exact Or.inl (h1.trans h2)
      · exact Or.inl (e2 ▸ h1)
    · rcases hbc with h2 | ⟨e2, l2⟩
      · exact Or.inl (e1 ▸ h2)
      · exact Or.inr ⟨e1.trans e2, l1.trans l2⟩

/-- Strict lexicographic order on keys. -/
def keyLt (a b : Int × Nat) : Prop :=
  a.1 < b.1 ∨ (a.1 = b.1 ∧ a.2 < b.2)

/-- The row index of `df_pivot` (lines 66-71): one row per
`(year, day_of_year)` pair occurring in `df_temp`.  `pivot_table` sorts
the index ascending, which the final `sort_values(['year','day_of_year'])`
of line 95 re-establishes anyway, so we build the keys sorted. -/
def pivotKeys (input : List Obs) : List (Int × Nat) :=
  (((tempRows input).map (fun r => (r.year, r.day_of_year))).dedup).insertionSort keyLe

/-- `1981 <= year <= 2010` (line 75). -/
def inWindow (y : Int) : Bool := decide (1981 ≤ y) && decide (y ≤ 2010)

/-- Whether `normals_by_day` has a group for `day_of_year = d`, i.e. some
pivot row of the 1981-2010 window falls on day `d`. -/
def hasNormalRow (input : List Obs) (d : Nat) : Bool :=
  (pivotKeys input).any (fun k => inWindow k.1 && k.2 == d)

/-- Lines 75-82: row `d` of `normals_by_day` — the means, over the pivot
rows of the 1981-2010 window with `day_of_year = d`, of the non-`NaN`
`TMAX` resp. `TMIN` cells (pandas `mean` skips `NaN`).  The pair is
`(avg_max, avg_min)`. -/
def normals_by_day (input : List Obs) (d : Nat) : Option ℚ × Option ℚ :=
  (meanQ ((pivotKeys input).filterMap fun k =>
      if inWindow k.1 && k.2 == d then pivotTMAX input k.1 k.2 else none),
   meanQ ((pivotKeys input).filterMap fun k =>
      if inWindow k.1 && k.2 == d then pivotTMIN input k.1 k.2 else none))

/-- Lines 85-88: row `d` of `records_by_day` — max of the `TMAX` cells and
min of the `TMIN` cells over all pivot rows with `day_of_year = d`.
The pair is `(record_max, record_min)`. -/
def records_by_day (input : List Obs) (d : Nat) : Option ℚ × Option ℚ :=
  (((pivotKeys input).filterMap fun k =>
      if k.2 == d then pivotTMAX input k.1 k.2 else none).max?,
   ((pivotKeys input).filterMap fun k =>
      if k.2 == d then pivotTMIN input k.1 k.2 else none).min?)

/-- One row of the frame returned by `get_weather_data`. -/
structure DailyRecord where
  year : Int
  day_of_year : Nat
  TMAX : Option ℚ
  TMIN : Option ℚ
  avg_max : Option ℚ
  avg_min : Option ℚ
  record_max : Option ℚ
  record_min : Option ℚ
deriving DecidableEq, Repr

/-- The output row for pivot key `k`. -/
def mkRecord (input : List Obs) (k : Int × Nat) : DailyRecord :=
  { year := k.1, day_of_year := k.2,
    TMAX := pivotTMAX input k.1 k.2, TMIN := pivotTMIN input k.1 k.2,
    avg_max := (normals_by_day input k.2).1, avg_min := (normals_by_day input k.2).2,
    record_max := (records_by_day input k.2).1, record_min := (records_by_day input k.2).2 }

/-- The value computed by lines 52-95 of `get_weather_data` on the
executions that do not raise: the early return on an empty `df_temp`
(lines 53-55), the pivot, the two inner merges of lines 91-92
(`DataFrame.merge` defaults to an inner join, so a pivot row survives
exactly when `normals_by_day` has a group for its `day_of_year`;
`records_by_day` has a group for every present day, so the second merge
drops nothing), and the final sort of line 95.  When `df_temp` is
non-empty but holds only one element kind, the program instead raises an
uncaught `KeyError` at the dict aggregation of lines 79-82 (the pivot
lacks the other column); that raising path is modelled by
`get_weather_data_run` below, which returns this value exactly on the
non-raising executions. -/
def get_weather_data (input : List Obs) : List DailyRecord :=
  if tempRows input = [] then []
  else ((pivotKeys input).filter fun k => hasNormalRow input k.2).map (mkRecord input)

/-- Whether `df_pivot` has a column for element `el`: `pivot_table`
(lines 66-70) creates one column per element kind present in `df_temp`
(each present kind has at least one non-`NaN` cell, so `dropna` keeps
its column). -/
def hasElemCol (input : List Obs) (el : String) : Bool :=
  (tempRows input).any (fun r => r.element == el)

/-- Lines 52-95 as the program actually executes them.  The `try/except`
ends at line 49, so when `df_temp` is non-empty but the pivot lacks the
`TMAX` or `TMIN` column (the feed's temperature rows are all one element
kind), the dict aggregation `normals.groupby(...).agg({'TMAX': ...,
'TMIN': ...})` at lines 79-82 raises an uncaught
`KeyError: Column(s) [...] do not exist` that escapes the function;
otherwise the merged, sorted frame `get_weather_data` is returned.
(With both columns present no later line can raise: an empty `normals`
frame still has both columns, so the aggregations and merges succeed.) -/
def get_weather_data_run (input : List Obs) : Except String (List DailyRecord) :=
  if tempRows input = [] then Except.ok []
  else if hasElemCol input "TMAX" && hasElemCol input "TMIN" then
    Except.ok (get_weather_data input)
  else if hasElemCol input "TMAX" then
    Except.error "KeyError: Column(s) ['TMIN'] do not exist"
  else Except.error "KeyError: Column(s) ['TMAX'] do not exist"

/-! ## Observation-level aggregates, for stating the spec's properties -/

/-- All TMAX values (in degrees) observed for `day_of_year = d`, any year. -/
def allTmaxDay (input : List Obs) (d : Nat) : List ℚ :=
  (input.filter (fun r => r.element == "TMAX" && r.day_of_year == d)).map
    (fun r => r.value / 10)

/-- All TMIN values (in degrees) observed for `day_of_year = d`, any year. -/
def allTminDay (input : List Obs) (d : Nat) : List ℚ :=
  (input.filter (fun r => r.element == "TMIN" && r.day_of_year == d)).map
    (fun r => r.value / 10)

/-- TMAX values (in degrees) observed for day `d` in years 1981-2010. -/
def windowTmaxDay (input : List Obs) (d : Nat) : List ℚ :=
  (input.filter
      (fun r => r.element == "TMAX" && r.day_of_year == d && inWindow r.year)).map
    (fun r => r.value / 10)

/-- TMIN values (in degrees) observed for day `d` in years 1981-2010. -/
def windowTminDay (input : List Obs) (d : Nat) : List ℚ :=
  (input.filter
      (fun r => r.element == "TMIN" && r.day_of_year == d && inWindow r.year)).map
    (fun r => r.value / 10)

/-! ## Element-generic views of the value lists

`tmaxValsAt`, `allTmaxDay`, `windowTmaxDay` and their TMIN twins differ
only in the element string; the `el`-parameterized versions below let the
aggregation lemmas be proved once. -/

/-- The observations of `df_temp` with element `el` on pivot cell `(y, d)`,
in degrees. -/
def elValsAt (el : String) (input : List Obs) (y : Int) (d : Nat) : List ℚ :=
  ((tempRows input).filter
      (fun r => r.element == el && r.year == y && r.day_of_year == d)).map
    (fun r => r.value / 10)

/-- All values of element `el` (in degrees) observed for day `d`. -/
def allElDay (el : String) (input : List Obs) (d : Nat) : List ℚ :=
  (input.filter (fun r => r.element == el && r.day_of_year == d)).map
    (fun r => r.value / 10)

/-- Values of element `el` (in degrees) observed for day `d` in 1981-2010. -/
def windowElDay (el : String) (input : List Obs) (d : Nat) : List ℚ :=
  (input.filter
      (fun r => r.element == el && r.day_of_year == d && inWindow r.year)).map
    (fun r => r.value / 10)

/-- No two observations share the same (element, year, day_of_year) cell —
true of the actual GHCN feed, which has one row per date and element. -/
def dupFree (input : List Obs) : Prop :=
  input.Pairwise fun a b =>
    ¬(a.element = b.element ∧ a.year = b.year ∧ a.day_of_year = b.day_of_year)

instance (input : List Obs) : Decidable (dupFree input) := by
  unfold dupFree; infer_instance

/-! ## The dashboard layer (lines 13-19 and 101-183) -/

/-- Line 13: the fixed city → station table, in source order. -/
def STATION_DATA : List (String × String) :=
  [("Chicago, IL", "USW00094846"),
   ("New York, NY", "USW00094728"),
   ("Los Angeles, CA", "USW00093134"),
   ("Miami, FL", "USW00012839"),
   ("Denver, CO", "USW00023062")]

deriving instance DecidableEq for Except

/-- The result of the one HTTP download for a station: either the parsed
CSV rows or the exception message of a failed download/parse. -/
abbrev Fetch := String → Except String (List Obs)

/-- The whole of `get_weather_data` including the try/except of lines
36-49: a download failure is caught, prints a diagnostic, and returns an
empty frame — but the try/except ends at line 49, so the `KeyError` of a
single-element-kind feed (`get_weather_data_run`) propagates out of the
function.  On success, first component: the returned frame; second: the
printed lines. -/
def get_weather_data_full (station_id : String) (fetched : Except String (List Obs)) :
    Except String (List DailyRecord × List String) :=
  match fetched with
  | Except.error e =>
      Except.ok ([], ["Error downloading data for station " ++ station_id ++ ": " ++ e])
  | Except.ok rows =>
      match get_weather_data_run rows with
      | Except.error e => Except.error e
      | Except.ok tbl => Except.ok (tbl, [])

/-- The dict comprehension of line 103, station by station in source
order: an uncaught exception from any station's preparation aborts the
whole comprehension (and with it the startup) at that point. -/
def prepStations (fetch : Fetch) :
    List (String × String) → Except String (List (String × List DailyRecord))
  | [] => Except.ok []
  | p :: ps =>
    match get_weather_data_full p.2 (fetch p.2) with
    | Except.error e => Except.error e
    | Except.ok t =>
      match prepStations fetch ps with
      | Except.error e => Except.error e
      | Except.ok rest => Except.ok ((p.1, t.1) :: rest)

/-- Line 103: `all_data = {city: get_weather_data(sid) for ...}` — the
whole prepared map, or the exception that killed the startup. -/
def all_data (fetch : Fetch) : Except String (List (String × List DailyRecord)) :=
  prepStations fetch STATION_DATA

/-- Line 106: the cities whose frame is non-empty.  When the startup
comprehension raised, the program died before this line, so no city is
ever usable — modelled as the empty list. -/
def valid_cities (fetch : Fetch) : List (String × List DailyRecord) :=
  match all_data fetch with
  | Except.error _ => []
  | Except.ok lst => lst.filter fun p => !p.2.isEmpty

/-- Line 107: `cities = sorted(list(valid_cities.keys()))` — Python sorts
strings by code points, as the lexicographic order on `String` does. -/
def cities (fetch : Fetch) : List String :=
  ((valid_cities fetch).map Prod.fst).insertionSort (· ≤ ·)

/-- Line 115: `sorted(df['year'].unique())`. -/
def yearsOf (tbl : List DailyRecord) : List Int :=
  ((tbl.map fun r => r.year).dedup).insertionSort (· ≤ ·)

/-- The dict lookup `valid_cities[city]`. -/
def cityTable (fetch : Fetch) (city : String) : Option (List DailyRecord) :=
  (valid_cities fetch).lookup city

/-- The mutable pieces of the Bokeh document the callbacks touch: the two
widget values, the year dropdown's option list, the plot's data source
and its title. -/
structure AppState where
  cityValue : String
  yearValue : Int
  yearOptions : List Int
  sourceData : List DailyRecord
  titleText : String
deriving DecidableEq, Repr

/-- Line 141 / 177: the title string. -/
def titleFor (city : String) (year : Int) : String :=
  "Weather Data for " ++ city ++ " in " ++ toString year

/-- Lines 109-127: the startup state.  `none` models the all-stations
failure branch (empty layout, no widgets).  Otherwise the first city of
the sorted list is selected, the year options are that city's years, the
selected year is the last (largest) of them, and the source holds that
city's rows for that year. -/
def initState (fetch : Fetch) : Option AppState :=
  match cities fetch with
  | [] => none
  | c0 :: _ =>
    let tbl := (cityTable fetch c0).getD []
    let ys := yearsOf tbl
    let y0 := ys.getLast?.getD 0
    some { cityValue := c0, yearValue := y0, yearOptions := ys,
           sourceData := tbl.filter (fun r => r.year == y0),
           titleText := titleFor c0 y0 }

/-- Lines 167-177: the `update_plot` callback, run after the widgets hold
`newCity`/`newYear`.  The bare dict access `valid_cities[selected_city]`
raises `KeyError` for a city outside `valid_cities` (modelled as
`Except.error`); otherwise the source data and the title are replaced and
nothing else — in particular `year_select.options` — is touched. -/
def update_plot (fetch : Fetch) (s : AppState) (newCity : String) (newYear : Int) :
    Except String AppState :=
  match cityTable fetch newCity with
  | none => Except.error ("KeyError: " ++ newCity)
  | some tbl =>
      Except.ok
        { cityValue := newCity, yearValue := newYear, yearOptions := s.yearOptions,
          sourceData := tbl.filter (fun r => r.year == newYear),
          titleText := titleFor newCity newYear }

/-! ## Concrete data for witnesses and counterexamples -/

/-- A tiny healthy feed: one TMAX and one TMIN observation on day 1 of
year 2000 (inside the normals window). -/
def rowsW : List Obs :=
  [⟨2000, 1, "TMAX", 100⟩, ⟨2000, 1, "TMIN", 0⟩]

/-- A fetch where only the Chicago station succeeds. -/
def fetchW : Fetch := fun sid =>
  if sid == "USW00094846" then Except.ok rowsW else Except.error "network unreachable"

/-- The single derived row `get_weather_data rowsW` produces. -/
def recW : DailyRecord :=
  ⟨2000, 1, some 10, some 0, some 10, some 0, some 10, some 0⟩

/-- A concrete prior view state. -/
def sW : AppState :=
  ⟨"Chicago, IL", 2000, [2000], [], "init"⟩

/-- The view state `update_plot fetchW sW "Chicago, IL" 2000` installs. -/
def tW : AppState :=
  ⟨"Chicago, IL", 2000, [2000], [recW], titleFor "Chicago, IL" 2000⟩

/-- A feed whose day 1 has data only outside 1981-2010 (year 2020) while
day 2 has 1990 data: the inner merge drops the `(2020, 1)` row. -/
def ex1 : List Obs :=
  [⟨2020, 1, "TMAX", 100⟩, ⟨2020, 1, "TMIN", 0⟩,
   ⟨1990, 2, "TMAX", 50⟩, ⟨1990, 2, "TMIN", 10⟩]

/-- A feed with no 1981-2010 data at all. -/
def ex2 : List Obs :=
  [⟨2020, 1, "TMAX", 100⟩, ⟨2020, 1, "TMIN", 0⟩]

/-- A feed with two TMAX observations on the same date: the pivot
averages them (10 and 30 degrees become 20). -/
def exDup : List Obs :=
  [⟨2000, 1, "TMAX", 100⟩, ⟨2000, 1, "TMAX", 300⟩, ⟨2000, 1, "TMIN", 0⟩]

/-- A feed where day 5 carries duplicated TMAX observations in 1985:
the mean of the per-year pivot cells (15) differs from the mean of the
raw window observations (50/3). -/
def exDup3 : List Obs :=
  [⟨1985, 5, "TMAX", 100⟩, ⟨1985, 5, "TMAX", 300⟩,
   ⟨1995, 5, "TMAX", 100⟩, ⟨1995, 5, "TMIN", 0⟩]

/-- A healthy Denver feed whose only year is 1999. -/
def rowsW2 : List Obs :=
  [⟨1999, 2, "TMAX", 150⟩, ⟨1999, 2, "TMIN", -50⟩]

/-- A fetch where Chicago (years: 2000) and Denver (years: 1999) succeed. -/
def fetchW2 : Fetch := fun sid =>
  if sid == "USW00094846" then Except.ok rowsW
  else if sid == "USW00023062" then Except.ok rowsW2
  else Except.error "network unreachable"

/-- A feed whose temperature rows are all TMAX: the pivot has no TMIN
column and the dict aggregation of lines 79-82 raises `KeyError`. -/
def rowsSingle : List Obs := [⟨2000, 1, "TMAX", 100⟩]

/-- A fetch where Chicago is healthy, New York returns a TMAX-only feed
(which kills the startup), and every other download — Denver's
included — fails. -/
def fetchBad : Fetch := fun sid =>
  if sid == "USW00094846" then Except.ok rowsW
  else if sid == "USW00094728" then Except.ok rowsSingle
  else Except.error "network unreachable"

/-- The single derived row `get_weather_data ex1` produces. -/
def recEx1 : DailyRecord :=
  ⟨1990, 2, some 5, some 1, some 5, some 1, some 5, some 1⟩

/-- The prepared map `all_data fetchW` yields: only Chicago has rows. -/
def lstW : List (String × List DailyRecord) :=
  [("Chicago, IL", [recW]), ("New York, NY", []), ("Los Angeles, CA", []),
   ("Miami, FL", []), ("Denver, CO", [])]

/-! ## General list lemmas -/

theorem band_eq_true {a b : Bool} : (a && b) = true ↔ a = true ∧ b = true := by
  cases a <;> cases b <;> simp

theorem length_le_one_of_pairwise {α : Type} {R : α → α → Prop} {l : List α}
    (h : l.Pairwise R) (hall : ∀ a ∈ l, ∀ b ∈ l, ¬ R a b) : l.length ≤ 1 := by
  cases l with
  | nil => simp
  | cons a t =>
    cases t with
    | nil => simp
    | cons b t2 =>
      exact absurd (List.rel_of_pairwise_cons h (by simp))
        (hall a (by simp) b (by simp))

theorem singleton_of_mem_length_le_one {α : Type} {l : List α} {x : α}
    (hx : x ∈ l) (hl : l.length ≤ 1) : l = [x] := by
  cases l with
  | nil => cases hx
  | cons a t =>
    cases t with
    | nil =>
      have : x = a := by simpa using hx
      simp [this]
    | cons b t2 =>
      exfalso
      simp [List.length_cons] at hl

theorem sum_map_add {α M : Type} [AddCommMonoid M] (l : List α) (f g : α → M) :
    (l.map fun a => f a + g a).sum = (l.map f).sum + (l.map g).sum := by
  induction l with
  | nil => simp
  | cons a t ih =>
    simp only [List.map_cons, List.sum_cons, ih]
    rw [add_add_add_comm]

theorem sum_map_ones {α : Type} (l : List α) :
    (l.map fun _ => (1 : ℕ)).sum = l.length := by
  induction l with
  | nil => simp
  | cons a t ih => simp [ih, Nat.add_comm]

theorem sum_map_ite_eq {κ M : Type} [DecidableEq κ] [AddCommMonoid M] (x : M) :
    ∀ (ks : List κ) (a : κ), ks.Nodup → a ∈ ks →
      (ks.map fun k => if a = k then x else 0).sum = x
  | [], a, _, ha => by cases ha
  | k :: t, a, hnd, ha => by
    rcases List.mem_cons.mp ha with rfl | hat
    · have hnotin : a ∉ t := (List.nodup_cons.mp hnd).1
      have hz : (t.map fun j => if a = j then x else 0).sum = 0 := by
        apply List.sum_eq_zero
        intro y hy
        obtain ⟨b, hb, rfl⟩ := List.mem_map.mp hy
        have : a ≠ b := fun e => hnotin (e ▸ hb)
        simp [this]
      simp [hz]
    · have hne : a ≠ k := fun e => (List.nodup_cons.mp hnd).1 (e ▸ hat)
      simp only [List.map_cons, List.sum_cons, if_neg hne, zero_add]
      exact sum_map_ite_eq x t a (List.nodup_cons.mp hnd).2 hat

theorem sum_group {α κ M : Type} [DecidableEq κ] [AddCommMonoid M]
    (ks : List κ) (hnd : ks.Nodup) (key : α → κ) (p : α → Bool) (v : α → M) :
    ∀ rs : List α, (∀ r ∈ rs, p r = true → key r ∈ ks) →
      (ks.map fun k => ((rs.filter fun r => p r && decide (key r = k)).map v).sum).sum
        = ((rs.filter p).map v).sum
  | [], _ => by simp
  | r :: rs, hcov => by
    have ih := sum_group ks hnd key p v rs
      (fun x hx hp => hcov x (List.mem_cons_of_mem _ hx) hp)
    have hsplit : ∀ k : κ,
        (((r :: rs).filter fun r0 => p r0 && decide (key r0 = k)).map v).sum
          = (if p r && decide (key r = k) then v r else 0)
            + (((rs.filter fun r0 => p r0 && decide (key r0 = k)).map v).sum) := by
      intro k
      rw [List.filter_cons]
      by_cases hc : (p r && decide (key r = k)) = true
      · rw [if_pos hc, if_pos hc, List.map_cons, List.sum_cons]
      · rw [if_neg hc, if_neg hc, zero_add]
    calc (ks.map fun k =>
            (((r :: rs).filter fun r0 => p r0 && decide (key r0 = k)).map v).sum).sum
        = (ks.map fun k =>
            (if p r && decide (key r = k) then v r else 0)
              + (((rs.filter fun r0 => p r0 && decide (key r0 = k)).map v).sum)).sum := by
          exact congrArg List.sum (List.map_congr_left fun k _ => hsplit k)
      _ = (ks.map fun k => if p r && decide (key r = k) then v r else 0).sum
            + (ks.map fun k =>
                (((rs.filter fun r0 => p r0 && decide (key r0 = k)).map v).sum)).sum := by
          exact sum_map_add ks _ _
      _ = ((( r :: rs).filter p).map v).sum := by
          rw [ih, List.filter_cons]
          by_cases hp : p r = true
          · rw [if_pos hp, List.map_cons, List.sum_cons]
            congr 1
            have : (ks.map fun k => if p r && decide (key r = k) then v r else 0)
                = ks.map fun k => if key r = k then v r else 0 := by
              apply List.map_congr_left
              intro k _
              by_cases he : key r = k
              · simp [hp, he]
              · simp [hp, he]
            rw [this]
            exact sum_map_ite_eq (v r) ks (key r) hnd (hcov r (by simp) hp)
          · rw [if_neg hp]
            have : (ks.map fun k => if p r && decide (key r = k) then v r else 0)
                = ks.map fun _ => (0 : M) := by
              apply List.map_congr_left
              intro k _
              simp [hp]
            rw [this]
            have hz : (ks.map fun _ => (0 : M)).sum = 0 :=
              List.sum_eq_zero fun y hy => by
                obtain ⟨b, _, rfl⟩ := List.mem_map.mp hy; rfl
            rw [hz, zero_add]

theorem length_filterMap_eq_sum {α β : Type} (f : α → Option β) :
    ∀ l : List α,
      (l.filterMap f).length = (l.map fun a => if (f a).isSome then 1 else 0).sum
  | [] => by simp
  | a :: l => by
    rw [List.filterMap_cons, List.map_cons, List.sum_cons]
    cases hfa : f a with
    | none => simp [hfa, length_filterMap_eq_sum f l]
    | some b => simp [hfa, length_filterMap_eq_sum f l, Nat.add_comm]

theorem sum_filterMap_getD {α : Type} (f : α → Option ℚ) :
    ∀ l : List α, (l.filterMap f).sum = (l.map fun a => (f a).getD 0).sum
  | [] => by simp
  | a :: l => by
    rw [List.filterMap_cons, List.map_cons, List.sum_cons]
    cases hfa : f a with
    | none => simp [sum_filterMap_getD f l]
    | some b => simp [sum_filterMap_getD f l]

theorem meanQ_congr {l1 l2 : List ℚ} (hs : l1.sum = l2.sum) (hl : l1.length = l2.length) :
    meanQ l1 = meanQ l2 := by
  unfold meanQ
  by_cases h : l1 = []
  · subst h
    have h2 : l2 = [] := List.length_eq_zero.mp (by simpa using hl.symm)
    simp [h2]
  · have h2 : l2 ≠ [] := by
      intro e
      exact h (List.length_eq_zero.mp (by rw [hl, e]; rfl))
    rw [if_neg h, if_neg h2, hs, hl]

theorem max?_spec (l : List ℚ) :
    (l = [] ∧ l.max? = none) ∨ ∃ m, l.max? = some m ∧ m ∈ l ∧ ∀ x ∈ l, x ≤ m := by
  cases hmax : l.max? with
  | none => exact Or.inl ⟨List.max?_eq_none_iff.mp hmax, rfl⟩
  | some m =>
    right
    refine ⟨m, rfl, ?_⟩
    have h := (List.max?_eq_some_iff (fun a => le_refl a) (fun a b => max_choice a b)
      (fun a b c => max_le_iff)).mp hmax
    exact h

theorem min?_spec (l : List ℚ) :
    (l = [] ∧ l.min? = none) ∨ ∃ m, l.min? = some m ∧ m ∈ l ∧ ∀ x ∈ l, m ≤ x := by
  cases hmin : l.min? with
  | none => exact Or.inl ⟨List.min?_eq_none_iff.mp hmin, rfl⟩
  | some m =>
    right
    refine ⟨m, rfl, ?_⟩
    have h := (List.min?_eq_some_iff (fun a => le_refl a) (fun a b => min_choice a b)
      (fun a b c => le_min_iff)).mp hmin
    exact h

theorem max?_eq_of_mem_iff {l1 l2 : List ℚ} (h : ∀ x, x ∈ l1 ↔ x ∈ l2) :
    l1.max? = l2.max? := by
  rcases max?_spec l1 with ⟨h1, e1⟩ | ⟨m1, e1, hm1, hb1⟩ <;>
    rcases max?_spec l2 with ⟨h2, e2⟩ | ⟨m2, e2, hm2, hb2⟩
  · rw [e1, e2]
  · exact absurd ((h m2).mpr hm2) (by simp [h1])
  · exact absurd ((h m1).mp hm1) (by simp [h2])
  · rw [e1, e2]
    exact congrArg some
      (le_antisymm (hb2 m1 ((h m1).mp hm1)) (hb1 m2 ((h m2).mpr hm2)))

theorem min?_eq_of_mem_iff {l1 l2 : List ℚ} (h : ∀ x, x ∈ l1 ↔ x ∈ l2) :
    l1.min? = l2.min? := by
  rcases min?_spec l1 with ⟨h1, e1⟩ | ⟨m1, e1, hm1, hb1⟩ <;>
    rcases min?_spec l2 with ⟨h2, e2⟩ | ⟨m2, e2, hm2, hb2⟩
  · rw [e1, e2]
  · exact absurd ((h m2).mpr hm2) (by simp [h1])
  · exact absurd ((h m1).mp hm1) (by simp [h2])
  · rw [e1, e2]
    exact congrArg some
      (le_antisymm (hb1 m2 ((h m2).mpr hm2)) (hb2 m1 ((h m1).mp hm1)))

/-! ## Characterizing the pivot table and the output frame -/

theorem mem_tempRows {input : List Obs} {r : Obs} :
    r ∈ tempRows input ↔ r ∈ input ∧ isTempRow r = true := by
  simp [tempRows, List.mem_filter]

theorem mem_pivotKeys {input : List Obs} {k : Int × Nat} :
    k ∈ pivotKeys input ↔ ∃ r ∈ tempRows input, (r.year, r.day_of_year) = k := by
  simp [pivotKeys, List.mem_insertionSort, List.mem_dedup, List.mem_map]

theorem pivotKeys_nodup (input : List Obs) : (pivotKeys input).Nodup :=
  ((List.perm_insertionSort keyLe _).nodup_iff).mpr (List.nodup_dedup _)

theorem pivotKeys_sorted (input : List Obs) : (pivotKeys input).Pairwise keyLe :=
  List.sorted_insertionSort keyLe _

theorem pivotKeys_pairwise_lt (input : List Obs) : (pivotKeys input).Pairwise keyLt := by
  have h := (pivotKeys_sorted input).and (pivotKeys_nodup input)
  refine h.imp ?_
  intro a b hab
  rcases hab with ⟨h1 | ⟨e1, l1⟩, hne⟩
  · exact Or.inl h1
  · refine Or.inr ⟨e1, lt_of_le_of_ne l1 ?_⟩
    intro e2
    exact hne (Prod.ext e1 e2)

theorem mem_get_weather_data {input : List Obs} {rec : DailyRecord} :
    rec ∈ get_weather_data input ↔
      ∃ k, k ∈ pivotKeys input ∧ hasNormalRow input k.2 = true ∧
        rec = mkRecord input k := by
  unfold get_weather_data
  by_cases h : tempRows input = []
  · rw [if_pos h]
    constructor
    · intro hx; cases hx
    · rintro ⟨k, hk, -, -⟩
      obtain ⟨r, hr, -⟩ := mem_pivotKeys.mp hk
      rw [h] at hr
      cases hr
  · rw [if_neg h]
    constructor
    · intro hx
      obtain ⟨k, hk, rfl⟩ := List.mem_map.mp hx
      exact ⟨k, (List.mem_filter.mp hk).1, (List.mem_filter.mp hk).2, rfl⟩
    · rintro ⟨k, hk, hn, rfl⟩
      exact List.mem_map.mpr ⟨k, List.mem_filter.mpr ⟨hk, hn⟩, rfl⟩

theorem tmaxValsAt_el : tmaxValsAt = elValsAt "TMAX" := rfl

theorem tminValsAt_el : tminValsAt = elValsAt "TMIN" := rfl

theorem allTmaxDay_el : allTmaxDay = allElDay "TMAX" := rfl

theorem allTminDay_el : allTminDay = allElDay "TMIN" := rfl

theorem windowTmaxDay_el : windowTmaxDay = windowElDay "TMAX" := rfl

theorem windowTminDay_el : windowTminDay = windowElDay "TMIN" := rfl

theorem isTempRow_TMAX : ∀ r : Obs, r.element = "TMAX" → isTempRow r = true := by
  intro r e
  unfold isTempRow
  rw [e]
  simp

theorem isTempRow_TMIN : ∀ r : Obs, r.element = "TMIN" → isTempRow r = true := by
  intro r e
  unfold isTempRow
  rw [e]
  simp

/-! ## Consequences of a duplicate-free feed -/

theorem elValsAt_len_le_one {input : List Obs} (h : dupFree input)
    (el : String) (y : Int) (d : Nat) : (elValsAt el input y d).length ≤ 1 := by
  unfold elValsAt
  rw [List.length_map]
  refine length_le_one_of_pairwise
    (List.Pairwise.filter _ (List.Pairwise.filter _ h)) ?_
  intro a ha b hb hR
  have hpa := (List.mem_filter.mp ha).2
  have hpb := (List.mem_filter.mp hb).2
  simp only [Bool.and_eq_true, beq_iff_eq] at hpa hpb
  exact hR ⟨hpa.1.1.trans hpb.1.1.symm, hpa.1.2.trans hpb.1.2.symm,
    hpa.2.trans hpb.2.symm⟩

theorem meanQ_eq_none_iff {l : List ℚ} : meanQ l = none ↔ l = [] := by
  unfold meanQ
  by_cases h : l = [] <;> simp [h]

theorem meanQ_singleton {v : ℚ} : meanQ [v] = some v := by
  unfold meanQ
  simp

theorem meanQ_mem_of_len_le_one {l : List ℚ} (hl : l.length ≤ 1) {x : ℚ} :
    meanQ l = some x ↔ x ∈ l := by
  constructor
  · intro hx
    have hne : l ≠ [] := by
      intro e
      rw [meanQ_eq_none_iff.mpr e] at hx
      cases hx
    obtain ⟨w, hw⟩ := List.exists_mem_of_ne_nil _ hne
    have hsing := singleton_of_mem_length_le_one hw hl
    rw [hsing, meanQ_singleton] at hx
    obtain rfl : w = x := Option.some_inj.mp hx
    rw [hsing]
    exact List.mem_singleton_self w
  · intro hx
    rw [singleton_of_mem_length_le_one hx hl]
    exact meanQ_singleton

theorem meanQ_getD_sum_of_len_le_one {l : List ℚ} (hl : l.length ≤ 1) :
    (meanQ l).getD 0 = l.sum := by
  cases l with
  | nil => simp [meanQ]
  | cons a t =>
    have ht : t = [] := by
      rw [List.length_cons] at hl
      exact List.length_eq_zero.mp (by omega)
    subst ht
    rw [meanQ_singleton]
    simp

theorem meanQ_isSome_len {l : List ℚ} (hl : l.length ≤ 1) :
    (if (meanQ l).isSome then 1 else 0) = l.length := by
  cases l with
  | nil => simp [meanQ]
  | cons a t =>
    have ht : t = [] := by
      rw [List.length_cons] at hl
      exact List.length_eq_zero.mp (by omega)
    subst ht
    rw [meanQ_singleton]
    simp

/-- Under a duplicate-free feed, the per-day record list over the pivot
cells has the same members as the raw per-day observation list. -/
theorem mem_recordsEl {input : List Obs} (h : dupFree input) {el : String}
    (hel : ∀ r : Obs, r.element = el → isTempRow r = true) {d : Nat} {x : ℚ} :
    (x ∈ (pivotKeys input).filterMap fun k =>
        if k.2 == d then meanQ (elValsAt el input k.1 k.2) else none)
      ↔ x ∈ allElDay el input d := by
  rw [List.mem_filterMap]
  constructor
  · rintro ⟨k, hk, hx⟩
    by_cases hd : (k.2 == d) = true
    · rw [if_pos hd] at hx
      have hbd : k.2 = d := beq_iff_eq.mp hd
      have hmem := (meanQ_mem_of_len_le_one (elValsAt_len_le_one h el k.1 k.2)).mp hx
      unfold elValsAt at hmem
      obtain ⟨r, hr, rfl⟩ := List.mem_map.mp hmem
      have hf := List.mem_filter.mp hr
      have hrin : r ∈ input := (mem_tempRows.mp hf.1).1
      have hp := hf.2
      simp only [Bool.and_eq_true, beq_iff_eq] at hp
      unfold allElDay
      refine List.mem_map.mpr ⟨r, List.mem_filter.mpr ⟨hrin, ?_⟩, rfl⟩
      simp only [Bool.and_eq_true, beq_iff_eq]
      exact ⟨hp.1.1, hp.2.trans hbd⟩
    · rw [if_neg hd] at hx
      cases hx
  · intro hx
    unfold allElDay at hx
    obtain ⟨r, hr, rfl⟩ := List.mem_map.mp hx
    have hf := List.mem_filter.mp hr
    have hp := hf.2
    simp only [Bool.and_eq_true, beq_iff_eq] at hp
    have hrt : r ∈ tempRows input := mem_tempRows.mpr ⟨hf.1, hel r hp.1⟩
    refine ⟨(r.year, r.day_of_year), mem_pivotKeys.mpr ⟨r, hrt, rfl⟩, ?_⟩
    have hd2 : (((r.year, r.day_of_year) : Int × Nat).2 == d) = true := by
      simpa using hp.2
    rw [if_pos hd2]
    apply (meanQ_mem_of_len_le_one (elValsAt_len_le_one h el r.year r.day_of_year)).mpr
    unfold elValsAt
    refine List.mem_map.mpr ⟨r, List.mem_filter.mpr ⟨hrt, ?_⟩, rfl⟩
    simp [hp.1]

/-- Under a duplicate-free feed, the mean the code takes over the pivot
cells of the normals window equals th mean over the raw window
observations: each surviving cell is a singleton. -/
theorem avgEl_eq {input : List Obs} (h : dupFree input) {el : String}
    (hel : ∀ r : Obs, r.element = el → isTempRow r = true) (d : Nat) :
    meanQ ((pivotKeys input).filterMap fun k =>
        if inWindow k.1 && k.2 == d then meanQ (elValsAt el input k.1 k.2) else none)
      = meanQ (windowElDay el input d) := by
  have hcov : ∀ r ∈ tempRows input,
      (r.element == el && r.day_of_year == d && inWindow r.year) = true →
        (r.year, r.day_of_year) ∈ pivotKeys input :=
    fun r hr _ => mem_pivotKeys.mpr ⟨r, hr, rfl⟩
  have hlist : ∀ k : Int × Nat,
      ((tempRows input).filter fun r =>
          (r.element == el && r.day_of_year == d && inWindow r.year)
            && decide ((r.year, r.day_of_year) = k))
        = (if (inWindow k.1 && k.2 == d) = true
            then (tempRows input).filter
              (fun r => r.element == el && r.year == k.1 && r.day_of_year == k.2)
            else []) := by
    rintro ⟨k1, k2⟩
    by_cases hc : (inWindow (k1, k2).1 && (k1, k2).2 == d) = true
    · rw [if_pos hc]
      rcases band_eq_true.mp hc with ⟨hw, hdk⟩
      have hkd : k2 = d := beq_iff_eq.mp hdk
      apply List.filter_congr
      intro r _
      rw [Bool.eq_iff_iff]
      simp only [Bool.and_eq_true, beq_iff_eq, decide_eq_true_eq, Prod.mk.injEq]
      constructor
      · rintro ⟨⟨⟨he2, hd2⟩, _⟩, hy, hd3⟩
        exact ⟨⟨he2, hy⟩, hd3⟩
      · rintro ⟨⟨he2, hy⟩, hd3⟩
        refine ⟨⟨⟨he2, hd3.trans hkd⟩, ?_⟩, hy, hd3⟩
        rw [hy]
        exact hw
    · rw [if_neg hc]
      rw [List.filter_eq_nil_iff]
      intro r _ hcond
      rw [Bool.and_eq_true] at hcond
      rcases hcond with ⟨hpr, hkey⟩
      have hkey2 : (r.year, r.day_of_year) = (k1, k2) := of_decide_eq_true hkey
      rw [Prod.mk.injEq] at hkey2
      apply hc
      rcases band_eq_true.mp hpr with ⟨h1, h2⟩
      rcases band_eq_true.mp h1 with ⟨_, h3⟩
      rw [Bool.and_eq_true]
      constructor
      · show inWindow k1 = true
        rw [← hkey2.1]
        exact h2
      · show (k2 == d) = true
        rw [← hkey2.2]
        exact h3
  have hcollapse : (tempRows input).filter
      (fun r => r.element == el && r.day_of_year == d && inWindow r.year)
      = input.filter (fun r => r.element == el && r.day_of_year == d && inWindow r.year) := by
    unfold tempRows
    rw [List.filter_filter]
    apply List.filter_congr
    intro r _
    by_cases hpr : (r.element == el && r.day_of_year == d && inWindow r.year) = true
    · have he2 : r.element = el := by
        rcases band_eq_true.mp hpr with ⟨h1, _⟩
        rcases band_eq_true.mp h1 with ⟨h2, _⟩
        exact beq_iff_eq.mp h2
      rw [hpr, hel r he2]
      rfl
    · have hf : (r.element == el && r.day_of_year == d && inWindow r.year) = false :=
        Bool.not_eq_true _ ▸ eq_false_of_ne_true hpr
      rw [hf]
      rfl
  apply meanQ_congr
  · rw [sum_filterMap_getD]
    have hpt : ((pivotKeys input).map fun k =>
        ((if inWindow k.1 && k.2 == d
            then meanQ (elValsAt el input k.1 k.2) else none).getD 0))
        = (pivotKeys input).map fun k =>
            ((((tempRows input).filter fun r =>
                (r.element == el && r.day_of_year == d && inWindow r.year)
                  && decide ((r.year, r.day_of_year) = k)).map
              (fun r => r.value / 10)).sum) := by
      apply List.map_congr_left
      intro k _
      rw [hlist k]
      by_cases hc : (inWindow k.1 && k.2 == d) = true
      · rw [if_pos hc, if_pos hc]
        rw [meanQ_getD_sum_of_len_le_one (elValsAt_len_le_one h el k.1 k.2)]
        rfl
      · rw [if_neg hc, if_neg hc]
        rfl
    rw [hpt]
    rw [sum_group (pivotKeys input) (pivotKeys_nodup input)
      (fun r : Obs => (r.year, r.day_of_year))
      (fun r : Obs => r.element == el && r.day_of_year == d && inWindow r.year)
      (fun r : Obs => r.value / 10) (tempRows input) hcov]
    rw [hcollapse]
    rfl
  · rw [length_filterMap_eq_sum]
    have hpt : ((pivotKeys input).map fun k =>
        (if (if inWindow k.1 && k.2 == d
              then meanQ (elValsAt el input k.1 k.2) else none).isSome
          then 1 else 0))
        = (pivotKeys input).map fun k =>
            ((((tempRows input).filter fun r =>
                (r.element == el && r.day_of_year == d && inWindow r.year)
                  && decide ((r.year, r.day_of_year) = k)).map
              (fun _ : Obs => (1 : ℕ))).sum) := by
      apply List.map_congr_left
      intro k _
      rw [hlist k]
      by_cases hc : (inWindow k.1 && k.2 == d) = true
      · rw [if_pos hc, if_pos hc]
        rw [meanQ_isSome_len (elValsAt_len_le_one h el k.1 k.2)]
        rw [sum_map_ones]
        unfold elValsAt
        rw [List.length_map]
      · rw [if_neg hc, if_neg hc]
        rfl
    rw [hpt]
    rw [sum_group (pivotKeys input) (pivotKeys_nodup input)
      (fun r : Obs => (r.year, r.day_of_year))
      (fun r : Obs => r.element == el && r.day_of_year == d && inWindow r.year)
      (fun _ : Obs => (1 : ℕ)) (tempRows input) hcov]
    rw [sum_map_ones, hcollapse]
    unfold windowElDay
    rw [List.length_map]

/-- Line 91 merged column `avg_max`, under a duplicate-free feed. -/
theorem normals_by_day_fst {input : List Obs} (h : dupFree input) (d : Nat) :
    (normals_by_day input d).1 = meanQ (windowTmaxDay input d) := by
  rw [windowTmaxDay_el]
  exact avgEl_eq h isTempRow_TMAX d

/-- Line 91 merged column `avg_min`, under a duplicate-free feed. -/
theorem normals_by_day_snd {input : List Obs} (h : dupFree input) (d : Nat) :
    (normals_by_day input d).2 = meanQ (windowTminDay input d) := by
  rw [windowTminDay_el]
  exact avgEl_eq h isTempRow_TMIN d

/-- Line 92 merged column `record_max`, under a duplicate-free feed. -/
theorem records_by_day_fst {input : List Obs} (h : dupFree input) (d : Nat) :
    (records_by_day input d).1 = (allTmaxDay input d).max? := by
  rw [allTmaxDay_el]
  exact max?_eq_of_mem_iff (fun x => mem_recordsEl h isTempRow_TMAX)

/-- Line 92 merged column `record_min`, under a duplicate-free feed. -/
theorem records_by_day_snd {input : List Obs} (h : dupFree input) (d : Nat) :
    (records_by_day input d).2 = (allTminDay input d).min? := by
  rw [allTminDay_el]
  exact min?_eq_of_mem_iff (fun x => mem_recordsEl h isTempRow_TMIN)

theorem hasNormalRow_iff {input : List Obs} {d : Nat} :
    hasNormalRow input d = true ↔
      ∃ r ∈ tempRows input, r.day_of_year = d ∧ inWindow r.year = true := by
  unfold hasNormalRow
  rw [List.any_eq_true]
  constructor
  · rintro ⟨k, hk, hcond⟩
    obtain ⟨r, hr, rfl⟩ := mem_pivotKeys.mp hk
    rw [Bool.and_eq_true, beq_iff_eq] at hcond
    exact ⟨r, hr, hcond.2, hcond.1⟩
  · rintro ⟨r, hr, hd, hw⟩
    refine ⟨(r.year, r.day_of_year), mem_pivotKeys.mpr ⟨r, hr, rfl⟩, ?_⟩
    rw [Bool.and_eq_true, beq_iff_eq]
    exact ⟨hw, hd⟩

/-! ## Order and key-uniqueness of the output rows -/

theorem gwd_pairwise (input : List Obs) :
    (get_weather_data input).Pairwise
      (fun a b => a.year < b.year ∨ (a.year = b.year ∧ a.day_of_year < b.day_of_year)) := by
  unfold get_weather_data
  by_cases h : tempRows input = []
  · rw [if_pos h]
    exact List.Pairwise.nil
  · rw [if_neg h]
    rw [List.pairwise_map]
    refine ((pivotKeys_pairwise_lt input).filter _).imp ?_
    intro a b hab
    exact hab

theorem gwd_filter_year_pairwise (input : List Obs) (y : Int) :
    ((get_weather_data input).filter fun r => r.year == y).Pairwise
      (fun a b => a.day_of_year < b.day_of_year) := by
  have h1 := List.Pairwise.filter (fun r => r.year == y) (gwd_pairwise input)
  refine List.Pairwise.imp_of_mem (fun {a b} ha hb hab => ?_) h1
  have hay : a.year = y := beq_iff_eq.mp (List.mem_filter.mp ha).2
  have hby : b.year = y := beq_iff_eq.mp (List.mem_filter.mp hb).2
  rcases hab with h2 | ⟨-, h2⟩
  · rw [hay, hby] at h2
    exact absurd h2 (lt_irrefl y)
  · exact h2

theorem gwd_key_pairwise_ne (input : List Obs) :
    (get_weather_data input).Pairwise
      (fun a b => ¬(a.year = b.year ∧ a.day_of_year = b.day_of_year)) := by
  refine (gwd_pairwise input).imp ?_
  intro a b hab
  rintro ⟨hy, hd⟩
  rcases hab with h2 | ⟨-, h2⟩
  · rw [hy] at h2
    exact absurd h2 (lt_irrefl _)
  · rw [hd] at h2
    exact absurd h2 (lt_irrefl _)

theorem gwd_doy_bounds {input : List Obs}
    (hdoy : ∀ r ∈ input, 1 ≤ r.day_of_year ∧ r.day_of_year ≤ 366) :
    ∀ x ∈ get_weather_data input, 1 ≤ x.day_of_year ∧ x.day_of_year ≤ 366 := by
  intro x hx
  obtain ⟨k, hk, -, rfl⟩ := mem_get_weather_data.mp hx
  obtain ⟨r, hr, rfl⟩ := mem_pivotKeys.mp hk
  exact hdoy r (mem_tempRows.mp hr).1

theorem length_le_366_of_pairwise {l : List DailyRecord}
    (hp : l.Pairwise fun a b => a.day_of_year < b.day_of_year)
    (hb : ∀ x ∈ l, 1 ≤ x.day_of_year ∧ x.day_of_year ≤ 366) : l.length ≤ 366 := by
  have hmapp : (l.map fun r => r.day_of_year).Pairwise (· < ·) := by
    rw [List.pairwise_map]
    exact hp
  have hnd : (l.map fun r => r.day_of_year).Nodup :=
    hmapp.imp (fun {a b} h => Nat.ne_of_lt h)
  have hsub : (l.map fun r => r.day_of_year).toFinset ⊆ Finset.Icc 1 366 := by
    intro x hx
    rw [List.mem_toFinset] at hx
    obtain ⟨r, hr, rfl⟩ := List.mem_map.mp hx
    rw [Finset.mem_Icc]
    exact hb r hr
  have hcard := Finset.card_le_card hsub
  rw [List.toFinset_card_of_nodup hnd, List.length_map] at hcard
  have hicc : (Finset.Icc 1 366 : Finset ℕ).card = 366 := by
    rw [Nat.card_Icc]
  rw [hicc] at hcard
  exact hcard

/-! ## Dashboard-layer lemmas -/

theorem station_names_nodup : (STATION_DATA.map Prod.fst).Nodup := by decide

theorem forall2_mem_left {α β : Type} {R : α → β → Prop} {l1 : List α} {l2 : List β}
    (h : List.Forall₂ R l1 l2) : ∀ a ∈ l1, ∃ b ∈ l2, R a b := by
  induction h with
  | nil =>
    intro a ha
    cases ha
  | cons hR htail ih =>
    intro a ha
    rcases List.mem_cons.mp ha with rfl | hat
    · exact ⟨_, List.mem_cons_self _ _, hR⟩
    · obtain ⟨b, hb, hRb⟩ := ih a hat
      exact ⟨b, List.mem_cons_of_mem _ hb, hRb⟩

theorem forall2_mem_right {α β : Type} {R : α → β → Prop} {l1 : List α} {l2 : List β}
    (h : List.Forall₂ R l1 l2) : ∀ b ∈ l2, ∃ a ∈ l1, R a b := by
  induction h with
  | nil =>
    intro b hb
    cases hb
  | cons hR htail ih =>
    intro b hb
    rcases List.mem_cons.mp hb with rfl | hbt
    · exact ⟨_, List.mem_cons_self _ _, hR⟩
    · obtain ⟨a, ha, hRa⟩ := ih b hbt
      exact ⟨a, List.mem_cons_of_mem _ ha, hRa⟩

theorem forall2_map_eq {α β γ : Type} {R : α → β → Prop} {f : α → γ} {g : β → γ}
    (hfg : ∀ a b, R a b → g b = f a) {l1 : List α} {l2 : List β}
    (h : List.Forall₂ R l1 l2) : l2.map g = l1.map f := by
  induction h with
  | nil => rfl
  | cons hR htail ih => simp [List.map_cons, ih, hfg _ _ hR]

/-- Each entry of a successfully prepared map corresponds, in order, to
its station: same display name, and the station's preparation returned
exactly that table. -/
theorem prepStations_forall2 {fetch : Fetch} :
    ∀ {sts : List (String × String)} {lst : List (String × List DailyRecord)},
      prepStations fetch sts = Except.ok lst →
      List.Forall₂ (fun (p : String × String) (q : String × List DailyRecord) =>
          q.1 = p.1 ∧ ∃ dgs, get_weather_data_full p.2 (fetch p.2) = Except.ok (q.2, dgs))
        sts lst
  | [], lst, h => by
    injection h with h
    rw [← h]
    exact List.Forall₂.nil
  | p :: ps, lst, h => by
    unfold prepStations at h
    cases hfull : get_weather_data_full p.2 (fetch p.2) with
    | error e =>
      rw [hfull] at h
      cases h
    | ok t =>
      rw [hfull] at h
      cases hrec : prepStations fetch ps with
      | error e =>
        rw [hrec] at h
        cases h
      | ok rest =>
        rw [hrec] at h
        injection h with h
        rw [← h]
        exact List.Forall₂.cons ⟨rfl, t.2, by rw [hfull]⟩ (prepStations_forall2 hrec)

theorem valid_cities_eq {fetch : Fetch} {lst : List (String × List DailyRecord)}
    (hrun : all_data fetch = Except.ok lst) :
    valid_cities fetch = lst.filter (fun p => !p.2.isEmpty) := by
  unfold valid_cities
  rw [hrun]

theorem exists_ok_of_valid_ne_nil {fetch : Fetch} (hv : valid_cities fetch ≠ []) :
    ∃ lst, all_data fetch = Except.ok lst := by
  unfold valid_cities at hv
  cases hrun : all_data fetch with
  | error e =>
    rw [hrun] at hv
    exact absurd rfl hv
  | ok lst => exact ⟨lst, rfl⟩

/-- The display names of a successfully prepared map, in order. -/
theorem prepared_names {fetch : Fetch} {lst : List (String × List DailyRecord)}
    (hrun : all_data fetch = Except.ok lst) :
    lst.map Prod.fst = STATION_DATA.map Prod.fst := by
  unfold all_data at hrun
  have h2 := prepStations_forall2 hrun
  exact forall2_map_eq (fun p q hpq => hpq.1) h2

theorem valid_names_nodup (fetch : Fetch) :
    ((valid_cities fetch).map Prod.fst).Nodup := by
  cases hrun : all_data fetch with
  | error e =>
    have hve : valid_cities fetch = [] := by
      unfold valid_cities
      rw [hrun]
    rw [hve]
    exact List.Pairwise.nil
  | ok lst =>
    rw [valid_cities_eq hrun]
    have hsub : ((lst.filter (fun p => !p.2.isEmpty)).map Prod.fst).Sublist
        (lst.map Prod.fst) :=
      List.Sublist.map _ (List.filter_sublist _)
    exact List.Nodup.sublist hsub ((prepared_names hrun) ▸ station_names_nodup)

theorem pair_eq_of_fst_nodup {α β : Type} :
    ∀ (l : List (α × β)), (l.map Prod.fst).Nodup →
      ∀ a b : α × β, a ∈ l → b ∈ l → a.1 = b.1 → a = b
  | [], _, a, _, ha, _, _ => absurd ha (List.not_mem_nil a)
  | x :: t, hnd, a, b, ha, hb, hab => by
    rw [List.map_cons, List.nodup_cons] at hnd
    rcases List.mem_cons.mp ha with rfl | hat <;>
      rcases List.mem_cons.mp hb with rfl | hbt
    · rfl
    · exact absurd (show a.1 ∈ t.map Prod.fst by
        rw [hab]; exact List.mem_map_of_mem Prod.fst hbt) hnd.1
    · exact absurd (show b.1 ∈ t.map Prod.fst by
        rw [← hab]; exact List.mem_map_of_mem Prod.fst hat) hnd.1
    · exact pair_eq_of_fst_nodup t hnd.2 a b hat hbt hab

theorem lookup_of_mem_nodup {β : Type} :
    ∀ (l : List (String × β)), (l.map Prod.fst).Nodup →
      ∀ (a : String) (b : β), (a, b) ∈ l → l.lookup a = some b
  | [], _, a, b, h => absurd h (List.not_mem_nil (a, b))
  | (x, y) :: t, hnd, a, b, h => by
    rw [List.map_cons, List.nodup_cons] at hnd
    rcases List.mem_cons.mp h with heq | hat
    · rw [Prod.mk.injEq] at heq
      obtain ⟨rfl, rfl⟩ := heq
      exact List.lookup_cons_self
    · have hne : a ≠ x := by
        intro e
        subst e
        exact hnd.1 (List.mem_map.mpr ⟨_, hat, rfl⟩)
      have hbe : (a == x) = false := by
        rw [beq_eq_false_iff_ne]
        exact hne
      simp only [List.lookup_cons, hbe]
      exact lookup_of_mem_nodup t hnd.2 a b hat

theorem mem_of_lookup_eq_some {β : Type} :
    ∀ (l : List (String × β)) (a : String) (b : β),
      l.lookup a = some b → (a, b) ∈ l
  | [], _, _, h => by cases h
  | (x, y) :: t, a, b, h => by
    by_cases he : (a == x) = true
    · simp only [List.lookup_cons, he] at h
      obtain rfl := beq_iff_eq.mp he
      obtain rfl := Option.some_inj.mp h
      exact List.mem_cons_self _ _
    · have he2 : (a == x) = false := by
        cases hab : a == x
        · rfl
        · exact absurd hab he
      simp only [List.lookup_cons, he2] at h
      exact List.mem_cons_of_mem _ (mem_of_lookup_eq_some t a b h)

theorem lookup_eq_none_of_not_mem_keys {β : Type} {l : List (String × β)} {a : String}
    (h : a ∉ l.map Prod.fst) : l.lookup a = none := by
  rw [List.lookup_eq_none_iff]
  intro p hp
  rw [bne_iff_ne]
  intro e
  exact h (by rw [e]; exact List.mem_map_of_mem Prod.fst hp)

theorem pairwise_le_head {α : Type} [Preorder α] {x0 : α} {t : List α}
    (hp : (x0 :: t).Pairwise (· ≤ ·)) : ∀ c ∈ x0 :: t, x0 ≤ c := by
  intro c hc
  rcases List.mem_cons.mp hc with rfl | hct
  · exact le_refl c
  · exact List.rel_of_pairwise_cons hp hct

theorem pairwise_le_getLast? {α : Type} [Preorder α] :
    ∀ {l : List α} {m : α}, l.Pairwise (· ≤ ·) → l.getLast? = some m →
      ∀ x ∈ l, x ≤ m
  | [], m, _, hlast, _, hx => absurd hx (List.not_mem_nil _)
  | [a], m, _, hlast, x, hx => by
    obtain rfl : a = m := by simpa using hlast
    obtain rfl : x = a := by simpa using hx
    exact le_refl x
  | a :: b :: t, m, hp, hlast, x, hx => by
    rw [List.getLast?_cons_cons] at hlast
    have htail : (b :: t).Pairwise (· ≤ ·) := hp.of_cons
    have hmem : m ∈ b :: t := List.mem_of_mem_getLast? (Option.mem_def.mpr hlast)
    rcases List.mem_cons.mp hx with rfl | hxt
    · exact List.rel_of_pairwise_cons hp hmem
    · exact pairwise_le_getLast? htail hlast x hxt

theorem mem_cities {fetch : Fetch} {c : String} :
    c ∈ cities fetch ↔ c ∈ (valid_cities fetch).map Prod.fst := by
  unfold cities
  exact List.mem_insertionSort _

theorem cities_sorted (fetch : Fetch) : (cities fetch).Pairwise (· ≤ ·) :=
  List.sorted_insertionSort _ _

theorem mem_yearsOf {tbl : List DailyRecord} {y : Int} :
    y ∈ yearsOf tbl ↔ y ∈ tbl.map (fun r => r.year) := by
  unfold yearsOf
  rw [List.mem_insertionSort, List.mem_dedup]

theorem yearsOf_sorted (tbl : List DailyRecord) : (yearsOf tbl).Pairwise (· ≤ ·) :=
  List.sorted_insertionSort _ _

theorem initState_eq {fetch : Fetch} {c0 : String} {rest : List String}
    (h : cities fetch = c0 :: rest) :
    initState fetch = some
      { cityValue := c0,
        yearValue := (yearsOf ((cityTable fetch c0).getD [])).getLast?.getD 0,
        yearOptions := yearsOf ((cityTable fetch c0).getD []),
        sourceData := ((cityTable fetch c0).getD []).filter
          (fun r => r.year ==
            (yearsOf ((cityTable fetch c0).getD [])).getLast?.getD 0),
        titleText := titleFor c0
          ((yearsOf ((cityTable fetch c0).getD [])).getLast?.getD 0) } := by
  unfold initState
  rw [h]

/-! ## Helper: the success path of `update_plot` -/

theorem update_plot_ok {fetch : Fetch} {city : String} {tbl : List DailyRecord}
    (hlk : cityTable fetch city = some tbl) (s : AppState) (year : Int) :
    update_plot fetch s city year = Except.ok
      { cityValue := city, yearValue := year, yearOptions := s.yearOptions,
        sourceData := tbl.filter (fun r => r.year == year),
        titleText := titleFor city year } := by
  unfold update_plot
  rw [hlk]

/-! ## The claims -/

/-- C1 (counterexample): the feed `ex1` carries a TMAX/TMIN observation
for `(year, day_of_year) = (2020, 1)`, yet the returned table has rows
only for `(1990, 2)`: the inner merge of line 91 silently drops every
row whose `day_of_year` has no 1981-2010 data, instead of keeping it
with absent `avg_max`/`avg_min`.  On `ex2`, whose station has no data in
the window at all, the whole returned table is empty rather than keeping
all rows with absent averages. -/
theorem C1_counterexample :
    ((get_weather_data ex1).map (fun r => (r.year, r.day_of_year))
        = [((1990 : Int), (2 : Nat))])
      ∧ (⟨2020, 1, "TMAX", 100⟩ : Obs) ∈ ex1
      ∧ isTempRow ⟨2020, 1, "TMAX", 100⟩ = true
      ∧ get_weather_data ex2 = []
      ∧ tempRows ex2 ≠ [] := by
  with_unfolding_all decide

/-- The membership characterization of the merged frame (the value of
the non-raising executions). -/
theorem merged_membership (input : List Obs) (y : Int) (d : Nat) :
    (∃ rec ∈ get_weather_data input, rec.year = y ∧ rec.day_of_year = d) ↔
      ((∃ r ∈ input, isTempRow r = true ∧ r.year = y ∧ r.day_of_year = d) ∧
       (∃ r ∈ input, isTempRow r = true ∧ r.day_of_year = d ∧
          inWindow r.year = true)) := by
  constructor
  · rintro ⟨rec, hrec, hy, hd⟩
    obtain ⟨k, hk, hnorm, rfl⟩ := mem_get_weather_data.mp hrec
    obtain ⟨r, hr, rfl⟩ := mem_pivotKeys.mp hk
    have hry : r.year = y := hy
    have hrd : r.day_of_year = d := hd
    constructor
    · exact ⟨r, (mem_tempRows.mp hr).1, (mem_tempRows.mp hr).2, hry, hrd⟩
    · obtain ⟨r2, hr2, hd2, hw2⟩ := hasNormalRow_iff.mp hnorm
      exact ⟨r2, (mem_tempRows.mp hr2).1, (mem_tempRows.mp hr2).2,
        hd2.trans hrd, hw2⟩
  · rintro ⟨⟨r1, hr1, ht1, hy1, hd1⟩, ⟨r2, hr2, ht2, hd2, hw2⟩⟩
    refine ⟨mkRecord input (y, d), ?_, rfl, rfl⟩
    apply mem_get_weather_data.mpr
    refine ⟨(y, d), ?_, ?_, rfl⟩
    · exact mem_pivotKeys.mpr ⟨r1, mem_tempRows.mpr ⟨hr1, ht1⟩, by rw [hy1, hd1]⟩
    · apply hasNormalRow_iff.mpr
      exact ⟨r2, mem_tempRows.mpr ⟨hr2, ht2⟩, hd2, hw2⟩

/-- C1 (amended): whenever `get_weather_data` returns a table at all —
it raises an uncaught `KeyError` when the feed's temperature rows are
all one element kind — a `(year, day_of_year)` pair has a row in that
table iff the input has a TMAX/TMIN observation for that pair AND that
`day_of_year` has at least one TMAX/TMIN observation in some 1981-2010
year.  Days with no qualifying 1981-2010 rows are dropped from the
output by the inner merge of line 91 (hence a station with both element
kinds but no data in the window yields an empty table); they are not
kept with absent `avg_max`/`avg_min`. -/
theorem C1_merge_membership (input : List Obs) (tbl : List DailyRecord)
    (hrun : get_weather_data_run input = Except.ok tbl) (y : Int) (d : Nat) :
    (∃ rec ∈ tbl, rec.year = y ∧ rec.day_of_year = d) ↔
      ((∃ r ∈ input, isTempRow r = true ∧ r.year = y ∧ r.day_of_year = d) ∧
       (∃ r ∈ input, isTempRow r = true ∧ r.day_of_year = d ∧
          inWindow r.year = true)) := by
  unfold get_weather_data_run at hrun
  by_cases hnil : tempRows input = []
  · rw [if_pos hnil] at hrun
    injection hrun with hrun
    rw [← hrun]
    constructor
    · rintro ⟨rec, hrec, -⟩
      cases hrec
    · rintro ⟨⟨r1, hr1, ht1, -⟩, -⟩
      have : r1 ∈ tempRows input := mem_tempRows.mpr ⟨hr1, ht1⟩
      rw [hnil] at this
      cases this
  · rw [if_neg hnil] at hrun
    by_cases hcols : (hasElemCol input "TMAX" && hasElemCol input "TMIN") = true
    · rw [if_pos hcols] at hrun
      injection hrun with hrun
      rw [← hrun]
      exact merged_membership input y d
    · rw [if_neg hcols] at hrun
      by_cases hmax : hasElemCol input "TMAX" = true
      · rw [if_pos hmax] at hrun
        cases hrun
      · rw [if_neg hmax] at hrun
        cases hrun

theorem C1_witness :
    get_weather_data_run ex1 = Except.ok [recEx1] ∧
    ((∃ rec ∈ [recEx1], rec.year = 1990 ∧ rec.day_of_year = 2) ↔
      ((∃ r ∈ ex1, isTempRow r = true ∧ r.year = 1990 ∧ r.day_of_year = 2) ∧
       (∃ r ∈ ex1, isTempRow r = true ∧ r.day_of_year = 2 ∧
          inWindow r.year = true))) :=
  ⟨by with_unfolding_all decide,
    C1_merge_membership ex1 [recEx1] (by with_unfolding_all decide) 1990 2⟩

/-- C2 (counterexample): on the feed `exDup`, which has two TMAX
observations on the same date (10 and 30 degrees), the pivot of line 66
averages them to 20, so the output row for day 1 carries
`record_max = 20` while the maximum TMAX observed across all years for
day 1 is 30. -/
theorem C2_counterexample :
    (get_weather_data exDup).map (fun r => r.record_max) = [some 20]
      ∧ (allTmaxDay exDup 1).max? = some 30
      ∧ some (20 : ℚ) ≠ some (30 : ℚ) := by
  with_unfolding_all decide

/-- C2 (amended): provided each (date, element) pair occurs at most once
in the feed — which is true of the real GHCN per-station files — every
output row's `record_max` equals the maximum TMAX observed across all
years for its `day_of_year`, and `record_min` the minimum TMIN (both
sides absent together when that element was never observed on that day).
With duplicated observations on a single date the pivot averages them
first, and the claim fails (`C2_counterexample`). -/
theorem C2_records (input : List Obs) (h : dupFree input)
    (rec : DailyRecord) (hrec : rec ∈ get_weather_data input) :
    rec.record_max = (allTmaxDay input rec.day_of_year).max? ∧
    rec.record_min = (allTminDay input rec.day_of_year).min? := by
  obtain ⟨k, hk, hnorm, rfl⟩ := mem_get_weather_data.mp hrec
  exact ⟨records_by_day_fst h k.2, records_by_day_snd h k.2⟩

theorem C2_witness :
    dupFree rowsW ∧ recW ∈ get_weather_data rowsW ∧
      (recW.record_max = (allTmaxDay rowsW recW.day_of_year).max? ∧
       recW.record_min = (allTminDay rowsW recW.day_of_year).min?) :=
  ⟨by decide, by with_unfolding_all decide,
    C2_records rowsW (by decide) recW (by with_unfolding_all decide)⟩

/-- C3 (counterexample): on the feed `exDup3` (TMAX 10 and 30 observed
in 1985 on day 5, TMAX 10 in 1995), the code averages the per-year pivot
cells (20 and 10) to `avg_max = 15`, while the arithmetic mean of the
TMAX values observed in the 1981-2010 window for day 5 is 50/3. -/
theorem C3_counterexample :
    (get_weather_data exDup3).map (fun r => r.avg_max) = [some 15, some 15]
      ∧ meanQ (windowTmaxDay exDup3 5) = some (50 / 3)
      ∧ (15 : ℚ) ≠ 50 / 3 := by
  with_unfolding_all decide

/-- C3 (amended): provided each (date, element) pair occurs at most once
in the feed, every output row's `avg_max` equals the arithmetic mean of
exactly the TMAX values observed in years 1981-2010 for its day_of_year
(absent when there are none), and symmetrically for `avg_min`/TMIN.
Every output row's day has at least one 1981-2010 observation
(the inner merge keeps only such days), matching the claim's guard.  With duplicated
observations on one date the pivot pre-averages them and the claim
fails (`C3_counterexample`). -/
theorem C3_averages (input : List Obs) (h : dupFree input)
    (rec : DailyRecord) (hrec : rec ∈ get_weather_data input) :
    rec.avg_max = meanQ (windowTmaxDay input rec.day_of_year) ∧
    rec.avg_min = meanQ (windowTminDay input rec.day_of_year) := by
  obtain ⟨k, hk, hnorm, rfl⟩ := mem_get_weather_data.mp hrec
  exact ⟨normals_by_day_fst h k.2, normals_by_day_snd h k.2⟩

theorem C3_witness :
    dupFree rowsW ∧ recW ∈ get_weather_data rowsW ∧
      (recW.avg_max = meanQ (windowTmaxDay rowsW recW.day_of_year) ∧
       recW.avg_min = meanQ (windowTminDay rowsW recW.day_of_year)) :=
  ⟨by decide, by with_unfolding_all decide,
    C3_averages rowsW (by decide) recW (by with_unfolding_all decide)⟩

/-- C4 (counterexample): Denver's download fails, but preparation does
not "continue for the remaining stations without the process failing":
New York's feed consists of TMAX rows only, so the dict aggregation of
lines 79-82 raises an uncaught `KeyError` that kills the startup
comprehension of line 103 — `all_data` is never built and no usable set
exists. -/
theorem C4_counterexample :
    fetchBad "USW00023062" = Except.error "network unreachable" ∧
    all_data fetchBad = Except.error "KeyError: Column(s) ['TMIN'] do not exist" := by
  with_unfolding_all decide

/-- C4 (amended): a station whose download fails yields an empty frame
and a printed diagnostic (lines 46-49); a station whose feed has no
TMAX/TMIN rows also yields an empty frame (lines 53-55).  Provided the
startup comprehension of line 103 completes — i.e. no station's feed
consists of temperature rows of a single element kind, whose uncaught
`KeyError` aborts the whole process (`C4_counterexample`) — the failing
city is excluded from the sorted selectable list and every station,
the failed one included, has its entry in the prepared map. -/
theorem C4_station_failure (fetch : Fetch) (city sid : String) (e : String)
    (rows : List Obs) (lst : List (String × List DailyRecord))
    (hmem : (city, sid) ∈ STATION_DATA)
    (hbad : fetch sid = Except.error e ∨
            (fetch sid = Except.ok rows ∧ tempRows rows = []))
    (hrun : all_data fetch = Except.ok lst) :
    (∃ dgs, get_weather_data_full sid (fetch sid) = Except.ok ([], dgs)) ∧
    (fetch sid = Except.error e →
        get_weather_data_full sid (fetch sid)
          = Except.ok ([], ["Error downloading data for station " ++ sid ++ ": " ++ e])) ∧
    city ∉ cities fetch ∧
    lst.length = STATION_DATA.length ∧
    (∀ p ∈ STATION_DATA, ∃ q ∈ lst, q.1 = p.1 ∧
        ∃ dgs, get_weather_data_full p.2 (fetch p.2) = Except.ok (q.2, dgs)) := by
  have hempty : ∃ dgs, get_weather_data_full sid (fetch sid) = Except.ok ([], dgs) := by
    rcases hbad with herr | ⟨hok, hrows⟩
    · refine ⟨["Error downloading data for station " ++ sid ++ ": " ++ e], ?_⟩
      rw [herr]
      rfl
    · refine ⟨[], ?_⟩
      rw [hok]
      show (match get_weather_data_run rows with
        | Except.error e2 => Except.error e2
        | Except.ok tbl => Except.ok (tbl, [])) = Except.ok ([], [])
      unfold get_weather_data_run
      rw [if_pos hrows]
  unfold all_data at hrun
  have hfa := prepStations_forall2 hrun
  refine ⟨hempty, ?_, ?_, ?_, ?_⟩
  · intro herr
    rw [herr]
    rfl
  · intro hc
    have hcv := mem_cities.mp hc
    obtain ⟨q, hq, hq1⟩ := List.mem_map.mp hcv
    have hqf : q ∈ lst.filter (fun p => !p.2.isEmpty) := by
      have hveq : valid_cities fetch = lst.filter (fun p => !p.2.isEmpty) := by
        unfold valid_cities all_data
        rw [hrun]
      rw [← hveq]
      exact hq
    have hql : q ∈ lst := (List.mem_filter.mp hqf).1
    have hqne : q.2 ≠ [] := by
      have hq2 := (List.mem_filter.mp hqf).2
      intro e2
      rw [e2] at hq2
      simp at hq2
    obtain ⟨p, hp, hp1, dgs, hpfull⟩ := forall2_mem_right hfa q hql
    have hpc : p.1 = city := by
      rw [← hq1, ← hp1]
    have hpeq : p = (city, sid) :=
      pair_eq_of_fst_nodup STATION_DATA station_names_nodup p (city, sid) hp hmem hpc
    rw [hpeq] at hpfull
    obtain ⟨dgs0, hfull0⟩ := hempty
    have heq : (Except.ok (q.2, dgs) : Except String (List DailyRecord × List String))
        = Except.ok ([], dgs0) := hpfull.symm.trans hfull0
    injection heq with heq
    exact hqne (congrArg Prod.fst heq)
  · exact (hfa.length_eq).symm
  · intro p hp
    obtain ⟨q, hql, hq1, dgs, hqfull⟩ := forall2_mem_left hfa p hp
    exact ⟨q, hql, hq1, dgs, hqfull⟩

theorem C4_witness :
    (("Denver, CO", "USW00023062") ∈ STATION_DATA) ∧
    (fetchW "USW00023062" = Except.error "network unreachable" ∨
      (fetchW "USW00023062" = Except.ok [] ∧ tempRows [] = [])) ∧
    all_data fetchW = Except.ok lstW ∧
    ((∃ dgs, get_weather_data_full "USW00023062" (fetchW "USW00023062")
        = Except.ok ([], dgs)) ∧
     (fetchW "USW00023062" = Except.error "network unreachable" →
        get_weather_data_full "USW00023062" (fetchW "USW00023062")
          = Except.ok ([],
              ["Error downloading data for station " ++ "USW00023062" ++ ": "
                ++ "network unreachable"])) ∧
     "Denver, CO" ∉ cities fetchW ∧
     lstW.length = STATION_DATA.length ∧
     (∀ p ∈ STATION_DATA, ∃ q ∈ lstW, q.1 = p.1 ∧
        ∃ dgs, get_weather_data_full p.2 (fetchW p.2) = Except.ok (q.2, dgs))) :=
  ⟨by decide, Or.inl rfl, by with_unfolding_all decide,
    C4_station_failure fetchW "Denver, CO" "USW00023062" "network unreachable" []
      lstW (by decide) (Or.inl rfl) (by with_unfolding_all decide)⟩


/-- C5 (counterexample): selecting a city that prepared no data is not a
silent no-op — the bare dict access `valid_cities[selected_city]` at
line 172 raises `KeyError` (modelled as `Except.error`) instead of
returning the unchanged state. -/
theorem C5_counterexample :
    ("Springfield, IL" ∉ (valid_cities fetchW).map Prod.fst) ∧
    update_plot fetchW sW "Springfield, IL" 1999
      = Except.error "KeyError: Springfield, IL" := by
  with_unfolding_all decide

/-- C5 (amended): for a city not among the stations that successfully
prepared data, `update_plot` raises a `KeyError` (it does not silently
no-op), aborting before the displayed dataset or title are touched.
Such a selection cannot arise through the UI, because the city
dropdown's options are exactly the valid cities. -/
theorem C5_invalid_city (fetch : Fetch) (s : AppState) (city : String) (year : Int)
    (h : city ∉ (valid_cities fetch).map Prod.fst) :
    update_plot fetch s city year = Except.error ("KeyError: " ++ city) ∧
    (∀ c ∈ cities fetch, c ∈ (valid_cities fetch).map Prod.fst) := by
  constructor
  · unfold update_plot cityTable
    rw [lookup_eq_none_of_not_mem_keys h]
  · intro c hc
    exact mem_cities.mp hc

theorem C5_witness :
    ("Springfield, IL" ∉ (valid_cities fetchW).map Prod.fst) ∧
    (update_plot fetchW sW "Springfield, IL" 1999
        = Except.error ("KeyError: " ++ "Springfield, IL") ∧
     (∀ c ∈ cities fetchW, c ∈ (valid_cities fetchW).map Prod.fst)) :=
  ⟨by with_unfolding_all decide,
    C5_invalid_city fetchW sW "Springfield, IL" 1999 (by with_unfolding_all decide)⟩

/-- C6: the data preparation is a pure, deterministic function of the
raw feed — running it twice on identical input rows yields identical
derived tables, both for the bare pipeline of lines 52-95 and for the
full per-station preparation including the download wrapper. -/
theorem C6_deterministic (input1 input2 : List Obs) (h : input1 = input2) :
    get_weather_data input1 = get_weather_data input2 ∧
    (∀ sid : String,
      get_weather_data_full sid (Except.ok input1)
        = get_weather_data_full sid (Except.ok input2)) := by
  subst h
  exact ⟨rfl, fun _ => rfl⟩

theorem C6_witness :
    rowsW = rowsW ∧
    (get_weather_data rowsW = get_weather_data rowsW ∧
     (∀ sid : String,
        get_weather_data_full sid (Except.ok rowsW)
          = get_weather_data_full sid (Except.ok rowsW))) :=
  ⟨rfl, C6_deterministic rowsW rowsW rfl⟩

/-- C7: for a valid (city, year) selection, the installed slice does not
depend on the prior view state — selecting the same pair twice installs
the same filtered dataset both times; the slice has no two rows sharing
a `(year, day_of_year)` key, and (since real dates give day_of_year in
1..366) it has at most 366 rows. -/
theorem C7_selection (fetch : Fetch) (input : List Obs) (city : String) (year : Int)
    (hdoy : ∀ r ∈ input, 1 ≤ r.day_of_year ∧ r.day_of_year ≤ 366)
    (hlk : cityTable fetch city = some (get_weather_data input))
    (s s2 t t2 : AppState)
    (h1 : update_plot fetch s city year = Except.ok t)
    (h2 : update_plot fetch s2 city year = Except.ok t2) :
    t.sourceData = t2.sourceData ∧
    t.sourceData.Pairwise
      (fun a b => ¬(a.year = b.year ∧ a.day_of_year = b.day_of_year)) ∧
    t.sourceData.length ≤ 366 := by
  rw [update_plot_ok hlk s year] at h1
  rw [update_plot_ok hlk s2 year] at h2
  injection h1 with h1
  injection h2 with h2
  subst h1
  subst h2
  refine ⟨rfl, ?_, ?_⟩
  · exact List.Pairwise.filter _ (gwd_key_pairwise_ne input)
  · apply length_le_366_of_pairwise
    · exact gwd_filter_year_pairwise input year
    · intro x hx
      exact gwd_doy_bounds hdoy x (List.mem_filter.mp hx).1

theorem C7_witness :
    (∀ r ∈ rowsW, 1 ≤ r.day_of_year ∧ r.day_of_year ≤ 366) ∧
    cityTable fetchW "Chicago, IL" = some (get_weather_data rowsW) ∧
    update_plot fetchW sW "Chicago, IL" 2000 = Except.ok tW ∧
    (tW.sourceData = tW.sourceData ∧
     tW.sourceData.Pairwise
       (fun a b => ¬(a.year = b.year ∧ a.day_of_year = b.day_of_year)) ∧
     tW.sourceData.length ≤ 366) :=
  ⟨by decide, by with_unfolding_all decide, by with_unfolding_all decide,
    C7_selection fetchW rowsW "Chicago, IL" 2000 (by decide)
      (by with_unfolding_all decide) sW sW tW tW
      (by with_unfolding_all decide) (by with_unfolding_all decide)⟩

/-- C8: the table returned by `get_weather_data` is sorted primarily by
year and secondarily by day_of_year, strictly ascending (keys are
unique); consequently any single-year slice of it — which is what a
selection installs (`update_plot_ok`) — is ordered by day_of_year
ascending. -/
theorem C8_sorted (input : List Obs) :
    (get_weather_data input).Pairwise
      (fun a b => a.year < b.year ∨ (a.year = b.year ∧ a.day_of_year < b.day_of_year)) ∧
    (∀ y : Int,
      ((get_weather_data input).filter fun r => r.year == y).Pairwise
        (fun a b => a.day_of_year < b.day_of_year)) :=
  ⟨gwd_pairwise input, fun y => gwd_filter_year_pairwise input y⟩

/-- C9: whenever at least one station prepared non-empty data, the
initial state selects the alphabetically smallest display name among the
cities with non-empty tables (lines 107, 118, 124), the largest year
present in that city's table (lines 115, 119, 125), and installs exactly
that city's rows for that year (line 126). -/
theorem C9_initial (fetch : Fetch) (hv : valid_cities fetch ≠ []) :
    ∃ s, initState fetch = some s ∧
      s.cityValue ∈ (valid_cities fetch).map Prod.fst ∧
      (∀ c ∈ (valid_cities fetch).map Prod.fst, s.cityValue ≤ c) ∧
      ∃ tbl, (s.cityValue, tbl) ∈ valid_cities fetch ∧
        s.yearValue ∈ tbl.map (fun r => r.year) ∧
        (∀ yy ∈ tbl.map (fun r => r.year), yy ≤ s.yearValue) ∧
        s.sourceData = tbl.filter (fun r => r.year == s.yearValue) := by
  have hmapne : (valid_cities fetch).map Prod.fst ≠ [] := by
    intro e
    exact hv (List.map_eq_nil_iff.mp e)
  have hcne : cities fetch ≠ [] := by
    intro e
    apply hmapne
    have hperm : ((valid_cities fetch).map Prod.fst).Perm (cities fetch) :=
      (List.perm_insertionSort _ _).symm
    rw [e] at hperm
    exact List.Perm.eq_nil hperm
  obtain ⟨c0, rest, hcs⟩ := List.exists_cons_of_ne_nil hcne
  have hc0mem : c0 ∈ (valid_cities fetch).map Prod.fst := by
    apply mem_cities.mp
    rw [hcs]
    exact List.mem_cons_self _ _
  obtain ⟨q, hq, hq1⟩ := List.mem_map.mp hc0mem
  have hqpair : (c0, q.2) ∈ valid_cities fetch := by
    rw [← hq1]
    exact hq
  have hct : cityTable fetch c0 = some q.2 :=
    lookup_of_mem_nodup (valid_cities fetch) (valid_names_nodup fetch) c0 q.2 hqpair
  have hq2ne : q.2 ≠ [] := by
    obtain ⟨lst, hrun⟩ := exists_ok_of_valid_ne_nil hv
    have hqf : q ∈ lst.filter (fun p => !p.2.isEmpty) := by
      rw [← valid_cities_eq hrun]
      exact hq
    have hq2 := (List.mem_filter.mp hqf).2
    intro e
    rw [e] at hq2
    simp at hq2
  have hysne : yearsOf q.2 ≠ [] := by
    obtain ⟨r0, t0, hq2e⟩ := List.exists_cons_of_ne_nil hq2ne
    apply List.ne_nil_of_mem
    apply mem_yearsOf.mpr
    rw [hq2e]
    exact List.mem_map.mpr ⟨r0, List.mem_cons_self _ _, rfl⟩
  have hlast : (yearsOf q.2).getLast? = some ((yearsOf q.2).getLast hysne) :=
    List.getLast?_eq_getLast _ hysne
  rw [initState_eq hcs, hct]
  simp only [Option.getD_some]
  refine ⟨_, rfl, hc0mem, ?_, ?_⟩
  · intro c hc
    have hcc : c ∈ cities fetch := mem_cities.mpr hc
    rw [hcs] at hcc
    have hsorted := cities_sorted fetch
    rw [hcs] at hsorted
    exact pairwise_le_head hsorted c hcc
  · refine ⟨q.2, hqpair, ?_, ?_, rfl⟩
    · show (yearsOf q.2).getLast?.getD 0 ∈ q.2.map (fun r => r.year)
      rw [hlast, Option.getD_some]
      exact mem_yearsOf.mp (List.getLast_mem hysne)
    · intro yy hyy
      show yy ≤ (yearsOf q.2).getLast?.getD 0
      rw [hlast, Option.getD_some]
      exact pairwise_le_getLast? (yearsOf_sorted q.2) hlast yy (mem_yearsOf.mpr hyy)

theorem C9_witness :
    valid_cities fetchW ≠ [] ∧
    (∃ s, initState fetchW = some s ∧
      s.cityValue ∈ (valid_cities fetchW).map Prod.fst ∧
      (∀ c ∈ (valid_cities fetchW).map Prod.fst, s.cityValue ≤ c) ∧
      ∃ tbl, (s.cityValue, tbl) ∈ valid_cities fetchW ∧
        s.yearValue ∈ tbl.map (fun r => r.year) ∧
        (∀ yy ∈ tbl.map (fun r => r.year), yy ≤ s.yearValue) ∧
        s.sourceData = tbl.filter (fun r => r.year == s.yearValue)) :=
  ⟨by with_unfolding_all decide, C9_initial fetchW (by with_unfolding_all decide)⟩

/-- C10: the year dropdown's options are computed once at startup from
the first valid city's years (line 115-119) and `update_plot` never
touches them; hence selecting a valid city while a year absent from that
city's table is selected succeeds and installs an empty (zero-row)
slice — no error is raised and the previous rows are not retained. -/
theorem C10_year_options (fetch : Fetch) (s : AppState) (city : String)
    (tbl : List DailyRecord) (year : Int)
    (hlk : cityTable fetch city = some tbl)
    (hy : year ∉ tbl.map (fun r => r.year)) :
    (∀ c y s2, update_plot fetch s c y = Except.ok s2 →
        s2.yearOptions = s.yearOptions) ∧
    (∀ c0 rest s0, cities fetch = c0 :: rest → initState fetch = some s0 →
        s0.yearOptions = yearsOf ((cityTable fetch c0).getD [])) ∧
    update_plot fetch s city year = Except.ok
      { cityValue := city, yearValue := year, yearOptions := s.yearOptions,
        sourceData := [], titleText := titleFor city year } := by
  refine ⟨?_, ?_, ?_⟩
  · intro c y s2 hupd
    unfold update_plot at hupd
    cases hct : cityTable fetch c with
    | none =>
      rw [hct] at hupd
      cases hupd
    | some tb =>
      rw [hct] at hupd
      injection hupd with hupd
      rw [← hupd]
  · intro c0 rest s0 hcs hinit
    rw [initState_eq hcs] at hinit
    injection hinit with hinit
    rw [← hinit]
  · have hfil : tbl.filter (fun r => r.year == year) = [] := by
      rw [List.filter_eq_nil_iff]
      intro r hr hcond
      apply hy
      rw [← beq_iff_eq.mp hcond]
      exact List.mem_map.mpr ⟨r, hr, rfl⟩
    rw [update_plot_ok hlk s year, hfil]

theorem C10_witness :
    cityTable fetchW2 "Denver, CO" = some (get_weather_data rowsW2) ∧
    ((2000 : Int) ∉ (get_weather_data rowsW2).map (fun r => r.year)) ∧
    ((∀ c y s2, update_plot fetchW2 sW c y = Except.ok s2 →
        s2.yearOptions = sW.yearOptions) ∧
     (∀ c0 rest s0, cities fetchW2 = c0 :: rest → initState fetchW2 = some s0 →
        s0.yearOptions = yearsOf ((cityTable fetchW2 c0).getD [])) ∧
     update_plot fetchW2 sW "Denver, CO" 2000 = Except.ok
       { cityValue := "Denver, CO", yearValue := 2000,
         yearOptions := sW.yearOptions, sourceData := [],
         titleText := titleFor "Denver, CO" 2000 }) :=
  ⟨by with_unfolding_all decide, by with_unfolding_all decide,
    C10_year_options fetchW2 sW "Denver, CO" (get_weather_data rowsW2) 2000
      (by with_unfolding_all decide) (by with_unfolding_all decide)⟩
